import Mathlib

/-!
# Verification of the pollination-capstone-api asynchronous job subsystem

Shallow embedding of the aggregation code (`app/database_mongodb.py`,
`app/video_worker.py`, `app/main.py`), the worker routine
(`app/video_worker.py`), the async submission endpoint (`app/main.py`),
and the Job Store.  Python dicts used as stage-count summaries are
embedded as insertion-ordered association lists whose keys carry their
Python type (`int` or `str`), so that the int-key / string-key
distinction of the source is preserved.  Machine floats used for the
per-frame averages are embedded as rationals; all the claims checked
here compare the very same arithmetic expressions on both sides, so the
choice of number representation is immaterial to them.

`JobRecord` is imported by `app/main.py` from `app.database_mongodb`
but no definition of it exists in the repository sources; its
operations are modelled from the specification (section 4.4) and are
marked `Modelled from the spec:` below.
-/

namespace Pollination

/-- A Python dict key as it occurs in the summary dictionaries of the
source: either an `int` key (`Sum.inl`) or a `str` key (`Sum.inr`).
Python distinguishes `0` from `"0"` as dict keys, and so does this
embedding. -/
abbrev PyKey := Sum Nat String

/-- A Python dict with numeric values, embedded as an insertion-ordered
association list (Python dicts preserve insertion order; re-assigning an
existing key keeps its position). -/
abbrev PyDict := List (PyKey × Nat)

/-- `d.get(k, dflt)` of a Python dict. -/
def dictGet : PyDict → PyKey → Nat → Nat
  | [], _, dflt => dflt
  | (k', v) :: rest, k, dflt => if k' = k then v else dictGet rest k dflt

/-- `d[k] = v` of a Python dict: update in place when the key is
present, append otherwise. -/
def dictSet : PyDict → PyKey → Nat → PyDict
  | [], k, v => [(k, v)]
  | (k', v') :: rest, k, v =>
      if k' = k then (k', v) :: rest else (k', v') :: dictSet rest k v

/-- The `d[k] = d.get(k, 0) + 1` idiom used by every stage-count loop in
the source. -/
def dictIncr (d : PyDict) (k : PyKey) : PyDict :=
  dictSet d k (dictGet d k 0 + 1)

/-- Python's `str()` applied to a dict key, as in the
`{str(k): v for k, v in d.items()}` comprehensions of the source. -/
def pyStr : PyKey → PyKey
  | Sum.inl n => Sum.inr (toString n)
  | Sum.inr s => Sum.inr s

/-- `{str(k): v for k, v in d.items()}`. -/
def stringifyKeys (d : PyDict) : PyDict :=
  d.map (fun kv => (pyStr kv.1, kv.2))

/-- One detection, as produced by `parse_yolo_results`
(`app/ml_model.py` lines 102-170): a bounding box, a growth stage and a
confidence.  `parse_yolo_results` clamps every stage into `{0, 1, 2}`
and `models.FlowerDetection` validates `0 ≤ stage ≤ 2`, so the stage is
a `Fin 3`. -/
structure Detection where
  bounding_box : List ℚ
  stage : Fin 3
  confidence : ℚ
deriving DecidableEq

/-- The number of detections of stage `s` in one frame. -/
def stageCountL (s : Nat) (l : List Detection) : Nat :=
  (l.filter (fun d => d.stage.val = s)).length

/-- The number of detections of stage `s` across all frames. -/
def stageCountF (s : Nat) (frames : List (List Detection)) : Nat :=
  (frames.map (stageCountL s)).sum

/-- The `video_metadata` dict built at `app/main.py` lines 473-477 and
`app/video_worker.py` lines 98-102; the consumers read its keys with
`dict.get` and a default, so each field is optional. -/
structure VideoMetadata where
  total_frames : Option Nat
  fps : Option ℚ
  duration : Option ℚ

/-- The three aggregate values every video path computes. -/
structure VideoAgg where
  stage_summary : PyDict
  total_detections : Nat
  average_flowers_per_frame : ℚ
deriving DecidableEq

/-- Embeds the aggregation of `VideoClassificationRecord.create`
(`app/database_mongodb.py` lines 224-239): an int-keyed stage dict
initialised to `{0: 0, 1: 0, 2: 0}`, a running total, key
stringification, and the guarded average. -/
def VideoClassificationRecord_create_agg
    (frame_results : List (List Detection)) (video_metadata : VideoMetadata) :
    VideoAgg :=
  let loop : PyDict × Nat :=
    frame_results.foldl
      (fun acc frame_detections =>
        frame_detections.foldl
          (fun p det => (dictIncr p.1 (Sum.inl det.stage.val), p.2))
          (acc.1, acc.2 + frame_detections.length))
      (([(Sum.inl 0, 0), (Sum.inl 1, 0), (Sum.inl 2, 0)] : PyDict), 0)
  let stage_summary := stringifyKeys loop.1
  let total_detections := loop.2
  let total_frames := video_metadata.total_frames.getD frame_results.length
  let avg_flowers : ℚ :=
    if total_frames > 0 then (total_detections : ℚ) / (total_frames : ℚ) else 0
  ⟨stage_summary, total_detections, avg_flowers⟩

/-- Embeds the aggregation of `_save_video_to_mongodb`
(`app/video_worker.py` lines 238-253), which repeats the code of
`VideoClassificationRecord.create` verbatim. -/
def save_video_to_mongodb_agg
    (frame_results : List (List Detection)) (video_metadata : VideoMetadata) :
    VideoAgg :=
  let loop : PyDict × Nat :=
    frame_results.foldl
      (fun acc frame_detections =>
        frame_detections.foldl
          (fun p det => (dictIncr p.1 (Sum.inl det.stage.val), p.2))
          (acc.1, acc.2 + frame_detections.length))
      (([(Sum.inl 0, 0), (Sum.inl 1, 0), (Sum.inl 2, 0)] : PyDict), 0)
  let stage_summary := stringifyKeys loop.1
  let total_detections := loop.2
  let total_frames := video_metadata.total_frames.getD frame_results.length
  let avg_flowers : ℚ :=
    if total_frames > 0 then (total_detections : ℚ) / (total_frames : ℚ) else 0
  ⟨stage_summary, total_detections, avg_flowers⟩

/-- The value `classify_video` returns to the worker
(`app/ml_model.py` interface, consumed at `app/video_worker.py`
lines 63-66 and 97-102): per-frame detection lists plus frame count,
fps and duration. -/
structure ClassificationResult where
  frame_results : List (List Detection)
  total_frames : Nat
  fps : ℚ
  duration : ℚ

/-- The worker's result payload and its aggregation
(`app/video_worker.py` lines 115-135): the total via
`sum(len(frame) ...)`, the guarded average over
`classification_result['total_frames']`, and a string-keyed stage dict
initialised to `{"0": 0, "1": 0, "2": 0}`. -/
structure WorkerResult where
  job_id : String
  video_path : String
  total_frames : Nat
  fps : ℚ
  duration_seconds : ℚ
  total_detections : Nat
  average_flowers_per_frame : ℚ
  stage_summary : PyDict
deriving DecidableEq

/-- Builds the worker's `result` dict (`app/video_worker.py`
lines 115-135). -/
def worker_result (job_id : String) (cr : ClassificationResult) :
    WorkerResult :=
  let total_detections := (cr.frame_results.map List.length).sum
  let avg_per_frame : ℚ :=
    if cr.total_frames > 0 then
      (total_detections : ℚ) / (cr.total_frames : ℚ)
    else 0
  let stage_summary :=
    cr.frame_results.foldl
      (fun acc frame_detections =>
        frame_detections.foldl
          (fun d det => dictIncr d (Sum.inr (toString det.stage.val)))
          acc)
      ([(Sum.inr "0", 0), (Sum.inr "1", 0), (Sum.inr "2", 0)] : PyDict)
  ⟨job_id, "/api/videos/" ++ job_id, cr.total_frames, cr.fps, cr.duration,
    total_detections, avg_per_frame, stage_summary⟩

/-- Embeds the image stage summary of `classify_flower_image`
(`app/main.py` lines 175-182): an int-keyed dict initialised to
`{0: 0, 1: 0, 2: 0}`, then stringified. -/
def classify_image_stage_summary (detections : List Detection) : PyDict :=
  stringifyKeys
    (detections.foldl
      (fun d det => dictIncr d (Sum.inl det.stage.val))
      ([(Sum.inl 0, 0), (Sum.inl 1, 0), (Sum.inl 2, 0)] : PyDict))

/-- Embeds the per-record stage counts of `get_heatmap_data`
(`app/main.py` lines 248-254), textually the same computation as the
image summary. -/
def heatmap_stage_counts (flowers : List Detection) : PyDict :=
  stringifyKeys
    (flowers.foldl
      (fun d flower => dictIncr d (Sum.inl flower.stage.val))
      ([(Sum.inl 0, 0), (Sum.inl 1, 0), (Sum.inl 2, 0)] : PyDict))

/-- Embeds the per-frame stage counts of `classify_flower_video`
(`app/main.py` lines 495-498) and `get_video_classification`
(`app/main.py` lines 604-607): an int-keyed dict that is **never**
converted to string keys. -/
def frame_stage_counts (frame_detections : List Detection) : PyDict :=
  frame_detections.foldl
    (fun d det => dictIncr d (Sum.inl det.stage.val))
    ([(Sum.inl 0, 0), (Sum.inl 1, 0), (Sum.inl 2, 0)] : PyDict)

/-! ## The Job Store and the worker routine

`JobRecord` is imported by `app/main.py` (line 30) from
`app.database_mongodb` but is not defined anywhere in the repository
sources; its operations are modelled from specification section 4.4.
The worker-side writer `_update_job_status` and the routine
`process_video_sync` are in the sources (`app/video_worker.py`) and are
embedded from them. -/

/-- The metadata dict the async endpoint attaches to a job
(`app/main.py` lines 809-814). -/
structure JobMetadata where
  filename : Option String
  latitude : Option ℚ
  longitude : Option ℚ
  file_size : Nat
deriving DecidableEq

/-- A job record, with the attributes of specification section 3:
`job_id`, `job_type`, `status`, `progress`, `message`, `created_at`,
`completed_at`, `result`, `error`, plus the creation metadata. -/
structure Job where
  job_id : String
  job_type : String
  status : String
  progress : Nat
  message : Option String
  created_at : Nat
  completed_at : Option Nat
  result : Option WorkerResult
  error : Option String
  metadata : JobMetadata
deriving DecidableEq

/-- One status-update payload: the fields a single `update_status` call
provides.  The worker always supplies `status`, `progress` and
`message` (`app/video_worker.py` lines 183-188); the submission-failure
call site (`app/main.py` lines 844-848) supplies only `status` and
`message`, so `progress` and `message` are optional here. -/
structure JobUpdate where
  status : String
  progress : Option Nat
  message : Option String
  result : Option WorkerResult
  error : Option String
deriving DecidableEq

/-- Applying one `$set` update document to a job record, as
`_update_job_status` builds it (`app/video_worker.py` lines 183-195):
provided fields overwrite, absent fields are untouched, and
`completed_at` is stamped whenever the new status is terminal.  The
spec-modelled `JobRecord.update_status` has the same partial-update
semantics (spec section 4.4). -/
def applyUpdate (j : Job) (u : JobUpdate) (now : Nat) : Job :=
  { j with
    status := u.status
    progress := u.progress.getD j.progress
    message := match u.message with | some m => some m | none => j.message
    result := match u.result with | some r => some r | none => j.result
    error := match u.error with | some e => some e | none => j.error
    completed_at :=
      if u.status = "completed" ∨ u.status = "failed" then some now
      else j.completed_at }

/-- Mongo `update_one` with no upsert, the write primitive of both
`_update_job_status` (`app/video_worker.py` lines 197-200) and the Job
Store: the first document matching the id filter is rewritten; with no
match the collection is unchanged and no error is raised and no
document is created. -/
def mongo_update_first : List Job → String → (Job → Job) → List Job
  | [], _, _ => []
  | j :: rest, job_id, f =>
      if j.job_id = job_id then f j :: rest
      else j :: mongo_update_first rest job_id f

/-- Modelled from the spec: `JobRecord.create(job_id, job_type,
status="queued", metadata)` of section 4.4 — `JobRecord` is missing
from the repository sources.  Creates the job record with the given
status (the API always passes `"queued"`), progress `0` and no
message, completion time, result or error (section 3). -/
def JobRecord_create (store : List Job) (job_id job_type status : String)
    (metadata : JobMetadata) (now : Nat) : List Job :=
  store ++ [⟨job_id, job_type, status, 0, none, now, none, none, none,
    metadata⟩]

/-- Modelled from the spec: `JobRecord.get_by_id(job_id)` of section
4.4 — `JobRecord` is missing from the repository sources. -/
def JobRecord_get_by_id (store : List Job) (job_id : String) : Option Job :=
  store.find? (fun j => j.job_id = job_id)

/-- Modelled from the spec: `JobRecord.get_active_jobs()` of section
4.4 — `JobRecord` is missing from the repository sources.  Returns the
jobs whose status is queued or processing. -/
def JobRecord_get_active_jobs (store : List Job) : List Job :=
  store.filter (fun j => j.status = "queued" ∨ j.status = "processing")

/-- Modelled from the spec: `JobRecord.update_status(job_id, status,
progress, message, result=None, error=None)` of section 4.4 —
`JobRecord` is missing from the repository sources.  A partial update
of the record with the given id; section 4.5 requires an update to a
missing id to be silently ignored. -/
def JobRecord_update_status (store : List Job) (job_id : String)
    (u : JobUpdate) (now : Nat) : List Job :=
  mongo_update_first store job_id (fun j => applyUpdate j u now)

/-- Modelled from the spec: `JobRecord.delete_by_id(job_id)` of section
4.4 — `JobRecord` is missing from the repository sources.  Removes the
record and reports whether it existed. -/
def JobRecord_delete_by_id (store : List Job) (job_id : String) :
    List Job × Bool :=
  (store.filter (fun j => ¬j.job_id = job_id),
   store.any (fun j => j.job_id = job_id))

/-- Embeds the body of `_update_job_status` (`app/video_worker.py`
lines 177-202) without the surrounding try/except: connect, build the
`$set` document, issue `update_one`.  `dbError` stands for any
exception the database driver raises (connection failure, write
error). -/
def update_job_status_db (dbError : Option String) (store : List Job)
    (job_id status : String) (progress : Nat) (message : String)
    (result : Option WorkerResult) (error : Option String) (now : Nat) :
    Except String (List Job) :=
  match dbError with
  | some e => Except.error e
  | none => Except.ok (mongo_update_first store job_id
      (fun j =>
        applyUpdate j ⟨status, some progress, some message, result, error⟩
          now))

/-- Embeds `_update_job_status` (`app/video_worker.py` lines 166-204):
the whole body is wrapped in try/except, every exception is logged and
swallowed, and the function always returns normally — on a database
error the store is simply left as it was. -/
def update_job_status (dbError : Option String) (store : List Job)
    (job_id status : String) (progress : Nat) (message : String)
    (result : Option WorkerResult) (error : Option String) (now : Nat) :
    List Job :=
  match update_job_status_db dbError store job_id status progress message
      result error now with
  | Except.ok s => s
  | Except.error _ => store

/-- The processing update at progress 10 (`app/video_worker.py`
lines 56-59). -/
def u_processing10 : JobUpdate :=
  ⟨"processing", some 10, some "Analyzing video frames...", none, none⟩

/-- The processing update at progress 50 (`app/video_worker.py`
lines 68-71). -/
def u_processing50 : JobUpdate :=
  ⟨"processing", some 50, some "Generating annotated video...", none, none⟩

/-- The processing update at progress 80 (`app/video_worker.py`
lines 81-84). -/
def u_processing80 : JobUpdate :=
  ⟨"processing", some 80, some "Saving to database...", none, none⟩

/-- The completion update (`app/video_worker.py` lines 138-142). -/
def u_completed (r : WorkerResult) : JobUpdate :=
  ⟨"completed", some 100, some "Video processing completed", some r, none⟩

/-- The failure update (`app/video_worker.py` lines 151-155): status
failed, **progress 0**, message and error from the exception text. -/
def u_failed (e : String) : JobUpdate :=
  ⟨"failed", some 0, some ("Error: " ++ e), none, some e⟩

/-- The fallible steps of the worker routine: `classify_video`,
`generate_annotated_video`, and the read-and-save step (reading the
annotated file plus `_save_video_to_mongodb`).  An `Except.error`
value is the exception text that step raises. -/
structure WorkerEnv where
  classify : Except String ClassificationResult
  annotate : Except String Unit
  save : Except String Unit

/-- Whether the transient input and output files exist. -/
structure FileState where
  input : Bool
  output : Bool
deriving DecidableEq

/-- `if os.path.exists(p): os.remove(p)` on one path. -/
def removeIfExists (present : Bool) : Bool :=
  if present then false else present

/-- The cleanup block run on both the success path
(`app/video_worker.py` lines 110-113) and the failure path
(lines 158-161). -/
def cleanupFiles (fs : FileState) : FileState :=
  ⟨removeIfExists fs.input, removeIfExists fs.output⟩

/-- The observable behaviour of one run of the worker routine: the
status updates it issues in order, its outcome (the return value or
the re-raised exception), and the final state of the transient
files. -/
structure WorkerRun where
  updates : List JobUpdate
  outcome : Except String WorkerResult
  files : FileState

/-- Embeds `process_video_sync` (`app/video_worker.py` lines 20-163).
The routine issues the progress-10 update, classifies, issues the
progress-50 update, annotates, issues the progress-80 update, saves,
cleans up and issues the completion update carrying the result
payload; any exception is caught once, the failure update is issued,
the files are cleaned up, and the exception is re-raised.  The input
file exists on entry (the endpoint wrote it); the output file exists
once `generate_annotated_video` has succeeded. -/
def process_video_sync (job_id : String) (env : WorkerEnv) : WorkerRun :=
  match env.classify with
  | Except.error e =>
      ⟨[u_processing10, u_failed e], Except.error e,
        cleanupFiles ⟨true, false⟩⟩
  | Except.ok cr =>
    match env.annotate with
    | Except.error e =>
        ⟨[u_processing10, u_processing50, u_failed e], Except.error e,
          cleanupFiles ⟨true, false⟩⟩
    | Except.ok _ =>
      match env.save with
      | Except.error e =>
          ⟨[u_processing10, u_processing50, u_processing80, u_failed e],
            Except.error e, cleanupFiles ⟨true, true⟩⟩
      | Except.ok _ =>
          let result := worker_result job_id cr
          ⟨[u_processing10, u_processing50, u_processing80,
              u_completed result],
            Except.ok result, cleanupFiles ⟨true, true⟩⟩

/-- A sample job record used by concrete witnesses. -/
def exJob : Job :=
  ⟨"job-a", "video_classification", "processing", 50, none, 0, none, none,
    none, ⟨none, none, none, 0⟩⟩

/-- Applying a worker run's updates to the store through
`_update_job_status`, each write subject to its own database behaviour
(the worker opens a fresh connection for every update). -/
def applyRunMasked (store : List Job) (job_id : String)
    (us : List JobUpdate) (dbError : Nat → Option String)
    (times : Nat → Nat) : List Job :=
  us.enum.foldl
    (fun s p =>
      update_job_status (dbError p.1) s job_id p.2.status
        (p.2.progress.getD 0) (p.2.message.getD "") p.2.result p.2.error
        (times p.1))
    store

/-- The HTTP outcome of an endpoint call: a successful JSON response
or a raised `HTTPException`. -/
inductive ApiResult (α : Type) where
  | ok (value : α)
  | httpError (status_code : Nat) (detail : String)
deriving DecidableEq

/-- Whether an endpoint call completed successfully. -/
def apiIsOk {α : Type} : ApiResult α → Bool
  | ApiResult.ok _ => true
  | ApiResult.httpError _ _ => false

/-- The `JobStatusResponse` the async endpoint returns on success
(`app/main.py` lines 859-866). -/
structure JobStatusResponse where
  job_id : String
  status : String
  progress : Nat
  message : String
  created_at : Nat
  estimated_time_remaining : Nat
deriving DecidableEq

/-- The fallible external steps of `classify_video_async`: creating
the job record in the database, and dispatching the work to the
process pool. -/
structure SubmitEnv where
  createError : Option String
  dispatchError : Option String

/-- The submission-failure update issued at `app/main.py`
lines 844-848: status failed and a message — **no progress, no error,
no result** are passed. -/
def submitFailureUpdate (e : String) : JobUpdate :=
  ⟨"failed", none, some ("Error submitting job: " ++ e), none, none⟩

/-- Embeds `classify_video_async` (`app/main.py` lines 761-866) from
the point the upload has been written to the temp file: create the job
record (on failure: remove the temp file and raise HTTP 500); submit
to the pool (on failure: mark the job failed via
`JobRecord.update_status` with a message only, remove the temp file,
and raise HTTP 500); otherwise fetch the job and return the queued
response.  The boolean is whether the temp input file still exists
when the handler returns (on success the worker owns it). -/
def classify_video_async (store : List Job) (job_id : String)
    (filename : Option String) (latitude longitude : Option ℚ)
    (file_size : Nat) (env : SubmitEnv) (now : Nat) :
    List Job × ApiResult JobStatusResponse × Bool :=
  match env.createError with
  | some e =>
      (store, ApiResult.httpError 500 ("Error creating job record: " ++ e),
        false)
  | none =>
    let store1 := JobRecord_create store job_id "video_classification"
      "queued" ⟨filename, latitude, longitude, file_size⟩ now
    match env.dispatchError with
    | some e =>
        (JobRecord_update_status store1 job_id (submitFailureUpdate e) now,
         ApiResult.httpError 500 ("Error submitting processing job: " ++ e),
         false)
    | none =>
      match JobRecord_get_by_id store1 job_id with
      | some job =>
          (store1,
           ApiResult.ok ⟨job_id, "queued", 0,
             "Video queued for processing. Check status endpoint for progress.",
             job.created_at, 60⟩,
           true)
      | none => (store1, ApiResult.httpError 500 "internal error", true)

/-! ## Claim C2: the job-record field invariants -/

/-- The record `JobRecord.create` inserts at submission time (spec
section 3: status queued, progress 0, nothing else set). -/
def createdJob (jid jt : String) (md : JobMetadata) (t0 : Nat) : Job :=
  ⟨jid, jt, "queued", 0, none, t0, none, none, none, md⟩

/-- A job record that has not yet received a terminal update. -/
def Pending (j : Job) : Prop :=
  (j.status = "queued" ∨ j.status = "processing") ∧ j.completed_at = none ∧
    j.result = none ∧ j.error = none

/-- The field-coupling invariants of spec section 3: `completed_at`
set iff terminal, `result` set iff completed, `error` set iff
failed. -/
def StatusFieldInv (j : Job) : Prop :=
  (j.completed_at.isSome ↔ (j.status = "completed" ∨ j.status = "failed")) ∧
    (j.result.isSome ↔ j.status = "completed") ∧
    (j.error.isSome ↔ j.status = "failed")

/-- A processing update of the worker routine. -/
def ProcUpdate (u : JobUpdate) : Prop :=
  u = u_processing10 ∨ u = u_processing50 ∨ u = u_processing80

/-- A terminal update of the worker routine. -/
def TermUpdate (u : JobUpdate) : Prop :=
  (∃ r, u = u_completed r) ∨ ∃ e, u = u_failed e

/-- Shape of every update sequence the worker issues: processing
updates followed by at most one terminal update. -/
inductive WorkerTrace : List JobUpdate → Prop
  | nil : WorkerTrace []
  | term (u : JobUpdate) (hu : TermUpdate u) : WorkerTrace [u]
  | proc (u : JobUpdate) (hu : ProcUpdate u) (tr : List JobUpdate)
      (h : WorkerTrace tr) : WorkerTrace (u :: tr)

/-- A job record is worker-produced when it is the created record with
some sublist of one worker run's update sequence applied in order (a
database error silently drops an individual write — see
`update_job_status` — so any sublist of the issued sequence can be the
applied one). -/
def workerProducedRecord (j : Job) : Prop :=
  ∃ (jid jt : String) (md : JobMetadata) (t0 : Nat) (env : WorkerEnv)
    (events : List (JobUpdate × Nat)),
    (events.map Prod.fst).Sublist (process_video_sync jid env).updates ∧
    j = events.foldl (fun a p => applyUpdate a p.1 p.2)
      (createdJob jid jt md t0)

/-- A job record produced on the submission-failure path of
`classify_video_async`: the created record, possibly followed by the
submission-failure update. -/
def submitFailureProducedRecord (j : Job) : Prop :=
  ∃ (jid jt : String) (md : JobMetadata) (t0 : Nat) (e : String)
    (events : List (JobUpdate × Nat)),
    (events.map Prod.fst).Sublist [submitFailureUpdate e] ∧
    j = events.foldl (fun a p => applyUpdate a p.1 p.2)
      (createdJob jid jt md t0)

/-- A job record produced by a worker run that fails at the
classification step, both issued writes applied. -/
def exFailedJob : Job :=
  [(u_processing10, 1), (u_failed "x", 2)].foldl
    (fun a p => applyUpdate a p.1 p.2)
    (createdJob "job-3" "video_classification" ⟨none, none, none, 0⟩ 0)

/-- A job record produced by the submission-failure path. -/
def exSubmitFailedJob : Job :=
  applyUpdate (createdJob "job-4" "video_classification" ⟨none, none, none, 0⟩ 0)
    (submitFailureUpdate "y") 3

/-! ## Counting lemmas for the stage dictionaries -/

lemma dictIncr_stage_nat (a b c : Nat) (s : Fin 3) :
    dictIncr [(Sum.inl 0, a), (Sum.inl 1, b), (Sum.inl 2, c)] (Sum.inl s.val) =
      [(Sum.inl 0, if s.val = 0 then a + 1 else a),
       (Sum.inl 1, if s.val = 1 then b + 1 else b),
       (Sum.inl 2, if s.val = 2 then c + 1 else c)] := by
  obtain ⟨v, hv⟩ := s
  interval_cases v <;> simp [dictIncr, dictGet, dictSet]

lemma toString_nat_zero : toString (0 : Nat) = "0" := rfl

lemma toString_nat_one : toString (1 : Nat) = "1" := rfl

lemma toString_nat_two : toString (2 : Nat) = "2" := rfl

lemma dictIncr_stage_str (a b c : Nat) (s : Fin 3) :
    dictIncr [(Sum.inr "0", a), (Sum.inr "1", b), (Sum.inr "2", c)]
        (Sum.inr (toString s.val)) =
      [(Sum.inr "0", if s.val = 0 then a + 1 else a),
       (Sum.inr "1", if s.val = 1 then b + 1 else b),
       (Sum.inr "2", if s.val = 2 then c + 1 else c)] := by
  obtain ⟨v, hv⟩ := s
  interval_cases v <;>
    simp [dictIncr, dictGet, dictSet, toString_nat_zero, toString_nat_one,
      toString_nat_two]

lemma stageCountL_cons (s : Nat) (d : Detection) (l : List Detection) :
    stageCountL s (d :: l) =
      (if d.stage.val = s then 1 else 0) + stageCountL s l := by
  by_cases h : d.stage.val = s
  · simp [stageCountL, List.filter_cons, h]
    omega
  · simp [stageCountL, List.filter_cons, h]

lemma foldl_incr_nat (l : List Detection) (a b c : Nat) :
    l.foldl (fun d det => dictIncr d (Sum.inl det.stage.val))
        [(Sum.inl 0, a), (Sum.inl 1, b), (Sum.inl 2, c)] =
      [(Sum.inl 0, a + stageCountL 0 l), (Sum.inl 1, b + stageCountL 1 l),
       (Sum.inl 2, c + stageCountL 2 l)] := by
  induction l generalizing a b c with
  | nil => simp [stageCountL]
  | cons d l ih =>
      rw [List.foldl_cons, dictIncr_stage_nat, ih]
      simp only [stageCountL_cons, List.cons.injEq, Prod.mk.injEq, and_true,
        true_and]
      refine ⟨?_, ?_, ?_⟩ <;> split <;> omega

lemma foldl_incr_str (l : List Detection) (a b c : Nat) :
    l.foldl (fun d det => dictIncr d (Sum.inr (toString det.stage.val)))
        [(Sum.inr "0", a), (Sum.inr "1", b), (Sum.inr "2", c)] =
      [(Sum.inr "0", a + stageCountL 0 l), (Sum.inr "1", b + stageCountL 1 l),
       (Sum.inr "2", c + stageCountL 2 l)] := by
  induction l generalizing a b c with
  | nil => simp [stageCountL]
  | cons d l ih =>
      rw [List.foldl_cons, dictIncr_stage_str, ih]
      simp only [stageCountL_cons, List.cons.injEq, Prod.mk.injEq, and_true,
        true_and]
      refine ⟨?_, ?_, ?_⟩ <;> split <;> omega

lemma foldl_pair_snd_const (l : List Detection) (p : PyDict × Nat) :
    l.foldl (fun q det => (dictIncr q.1 (Sum.inl det.stage.val), q.2)) p =
      (l.foldl (fun d det => dictIncr d (Sum.inl det.stage.val)) p.1, p.2) := by
  induction l generalizing p with
  | nil => rfl
  | cons x l ih => simp [List.foldl_cons, ih]

lemma stageCountF_cons (s : Nat) (f : List Detection)
    (fs : List (List Detection)) :
    stageCountF s (f :: fs) = stageCountL s f + stageCountF s fs := by
  simp [stageCountF]

lemma video_loop_nat (frames : List (List Detection)) (a b c t : Nat) :
    frames.foldl
        (fun acc frame =>
          frame.foldl (fun p det => (dictIncr p.1 (Sum.inl det.stage.val), p.2))
            (acc.1, acc.2 + frame.length))
        ([(Sum.inl 0, a), (Sum.inl 1, b), (Sum.inl 2, c)], t) =
      ([(Sum.inl 0, a + stageCountF 0 frames),
        (Sum.inl 1, b + stageCountF 1 frames),
        (Sum.inl 2, c + stageCountF 2 frames)],
       t + (frames.map List.length).sum) := by
  induction frames generalizing a b c t with
  | nil => simp [stageCountF]
  | cons f fs ih =>
      rw [List.foldl_cons]
      dsimp only
      rw [foldl_pair_snd_const]
      dsimp only
      rw [foldl_incr_nat, ih]
      simp only [stageCountF_cons, List.map_cons, List.sum_cons,
        Prod.mk.injEq, List.cons.injEq, and_true, true_and]
      refine ⟨⟨?_, ?_, ?_⟩, ?_⟩ <;> omega

lemma video_loop_str (frames : List (List Detection)) (a b c : Nat) :
    frames.foldl
        (fun acc frame =>
          frame.foldl
            (fun d det => dictIncr d (Sum.inr (toString det.stage.val))) acc)
        [(Sum.inr "0", a), (Sum.inr "1", b), (Sum.inr "2", c)] =
      [(Sum.inr "0", a + stageCountF 0 frames),
       (Sum.inr "1", b + stageCountF 1 frames),
       (Sum.inr "2", c + stageCountF 2 frames)] := by
  induction frames generalizing a b c with
  | nil => simp [stageCountF]
  | cons f fs ih =>
      rw [List.foldl_cons, foldl_incr_str, ih]
      simp only [stageCountF_cons, List.cons.injEq, Prod.mk.injEq, and_true,
        true_and]
      refine ⟨?_, ?_, ?_⟩ <;> omega

lemma stageCountL_partition (l : List Detection) :
    stageCountL 0 l + stageCountL 1 l + stageCountL 2 l = l.length := by
  induction l with
  | nil => simp [stageCountL]
  | cons d l ih =>
      have hlt : d.stage.val < 3 := d.stage.isLt
      simp only [stageCountL_cons, List.length_cons]
      generalize d.stage.val = v at hlt ⊢
      interval_cases v <;> simp <;> omega

/-! ## Claims C3, C4 and C9: the aggregation computations -/

/-- **C3.** For every frame-results list and video metadata (as the
worker and the synchronous endpoint actually build it, with the
`total_frames`/`fps`/`duration` keys present), the synchronous video
path (`VideoClassificationRecord.create`), the asynchronous worker's
save path (`_save_video_to_mongodb`) and the worker's result payload
(`process_video_sync`) compute identical `stage_summary`,
`total_detections` and `average_flowers_per_frame` values. -/
theorem aggregation_paths_agree (frames : List (List Detection)) (tf : Nat)
    (f d : ℚ) (jid : String) :
    VideoClassificationRecord_create_agg frames ⟨some tf, some f, some d⟩ =
        save_video_to_mongodb_agg frames ⟨some tf, some f, some d⟩ ∧
    (VideoClassificationRecord_create_agg frames
        ⟨some tf, some f, some d⟩).stage_summary =
      (worker_result jid ⟨frames, tf, f, d⟩).stage_summary ∧
    (VideoClassificationRecord_create_agg frames
        ⟨some tf, some f, some d⟩).total_detections =
      (worker_result jid ⟨frames, tf, f, d⟩).total_detections ∧
    (VideoClassificationRecord_create_agg frames
        ⟨some tf, some f, some d⟩).average_flowers_per_frame =
      (worker_result jid ⟨frames, tf, f, d⟩).average_flowers_per_frame := by
  refine ⟨rfl, ?_, ?_, ?_⟩ <;>
    simp [VideoClassificationRecord_create_agg, worker_result, video_loop_nat,
      video_loop_str, stringifyKeys, pyStr, toString_nat_zero, toString_nat_one,
      toString_nat_two]

/-- **C4.** For every detection list the image stage summary has values
summing to the length of the input and contains all three stage keys;
for every video aggregation the average is total over frames when the
frame count is positive, and `0` when it is zero. -/
theorem summarize_sum_and_average (detections : List Detection)
    (frames : List (List Detection)) (md : VideoMetadata) :
    ((classify_image_stage_summary detections).map Prod.snd).sum =
        detections.length ∧
    (classify_image_stage_summary detections).map Prod.fst =
        [Sum.inr "0", Sum.inr "1", Sum.inr "2"] ∧
    (0 < md.total_frames.getD frames.length →
      (VideoClassificationRecord_create_agg frames
          md).average_flowers_per_frame =
        ((VideoClassificationRecord_create_agg frames md).total_detections : ℚ)
          / (md.total_frames.getD frames.length : ℚ)) ∧
    (md.total_frames.getD frames.length = 0 →
      (VideoClassificationRecord_create_agg frames
          md).average_flowers_per_frame = 0) := by
  refine ⟨?_, ?_, ?_, ?_⟩
  · simp only [classify_image_stage_summary, foldl_incr_nat, stringifyKeys]
    have := stageCountL_partition detections
    simp
    omega
  · simp [classify_image_stage_summary, foldl_incr_nat, stringifyKeys, pyStr,
      toString_nat_zero, toString_nat_one, toString_nat_two]
  · intro h
    simp [VideoClassificationRecord_create_agg, h]
  · intro h
    simp [VideoClassificationRecord_create_agg, h]

/-- Witness for `summarize_sum_and_average` at concrete inputs: one
two-detection image, and a one-detection two-frame video (average
`1/2`), plus the zero-frame case. -/
theorem summarize_sum_and_average_witness :
    ((classify_image_stage_summary
        [⟨[0, 0, 1, 1], 1, 1⟩, ⟨[0, 0, 1, 1], 2, 1⟩]).map Prod.snd).sum = 2 ∧
    (VideoClassificationRecord_create_agg [[⟨[0, 0, 1, 1], 0, 1⟩], []]
        ⟨some 2, some 30, some 1⟩).average_flowers_per_frame =
      ((VideoClassificationRecord_create_agg [[⟨[0, 0, 1, 1], 0, 1⟩], []]
          ⟨some 2, some 30, some 1⟩).total_detections : ℚ) / (2 : ℚ) ∧
    (VideoClassificationRecord_create_agg []
        ⟨some 0, some 30, some 1⟩).average_flowers_per_frame = 0 := by
  refine ⟨(summarize_sum_and_average
      [⟨[0, 0, 1, 1], 1, 1⟩, ⟨[0, 0, 1, 1], 2, 1⟩] [] ⟨some 1, none, none⟩).1,
    ?_, ?_⟩
  · have h := (summarize_sum_and_average []
      [[⟨[0, 0, 1, 1], 0, 1⟩], []] ⟨some 2, some 30, some 1⟩).2.2.1 (by decide)
    simpa using h
  · have h := (summarize_sum_and_average [] []
      ⟨some 0, some 30, some 1⟩).2.2.2 (by decide)
    simpa using h

/-- **C9, counterexample.** The per-frame `stage_counts` dict built by
`classify_flower_video` (`app/main.py` lines 495-498) and
`get_video_classification` (`app/main.py` lines 604-607) has the
integer keys `0`, `1`, `2`, not the string keys `"0"`, `"1"`, `"2"`
the claim asserts: the dict is never passed through the string-key
conversion the other summaries receive. -/
theorem frame_stage_counts_integer_keys :
    (frame_stage_counts []).map Prod.fst =
        [Sum.inl 0, Sum.inl 1, Sum.inl 2] ∧
    (frame_stage_counts []).map Prod.fst ≠
        [Sum.inr "0", Sum.inr "1", Sum.inr "2"] := by decide

/-- **C9, amended.** The image `stage_summary`, the heatmap
`stage_counts` and the video `stage_summary` are string-keyed with all
of `"0"`, `"1"`, `"2"` present even at count zero; the per-frame
`stage_counts` mapping instead keeps the integer keys `0`, `1`, `2`
(all three present), and is only turned into string keys by JSON
serialization outside the code under consideration. -/
theorem summary_mapping_keys (detections flowers frame_dets : List Detection)
    (frames : List (List Detection)) (md : VideoMetadata) :
    (classify_image_stage_summary detections).map Prod.fst =
        [Sum.inr "0", Sum.inr "1", Sum.inr "2"] ∧
    (heatmap_stage_counts flowers).map Prod.fst =
        [Sum.inr "0", Sum.inr "1", Sum.inr "2"] ∧
    ((VideoClassificationRecord_create_agg frames md).stage_summary).map
        Prod.fst = [Sum.inr "0", Sum.inr "1", Sum.inr "2"] ∧
    (frame_stage_counts frame_dets).map Prod.fst =
        [Sum.inl 0, Sum.inl 1, Sum.inl 2] := by
  refine ⟨?_, ?_, ?_, ?_⟩ <;>
    simp [classify_image_stage_summary, heatmap_stage_counts,
      frame_stage_counts, VideoClassificationRecord_create_agg, foldl_incr_nat,
      video_loop_nat, stringifyKeys, pyStr, toString_nat_zero, toString_nat_one,
      toString_nat_two]

lemma mongo_update_first_no_match (store : List Job) (job_id : String)
    (f : Job → Job) (h : ∀ j ∈ store, j.job_id ≠ job_id) :
    mongo_update_first store job_id f = store := by
  induction store with
  | nil => rfl
  | cons j rest ih =>
      rw [mongo_update_first, if_neg (h j (by simp)),
        ih (fun x hx => h x (by simp [hx]))]

/-! ## Claims C5, C6, C7, C10: the worker routine and its status writer -/

/-- **C5, counterexample.** When `classify_video` raises, the worker
issues the progress-10 update and then the failure update with
progress **0** (`app/video_worker.py` line 153), so the progress
values across successive updates are 10, 0 — not monotonically
increasing as the claim states for the failure path. -/
theorem worker_progress_not_monotone :
    ¬List.Chain' (fun a b => a ≤ b)
        (((process_video_sync "job-1"
            ⟨Except.error "boom", Except.ok (), Except.ok ()⟩).updates).map
          (fun u => u.progress.getD 0)) := by
  simp [process_video_sync, u_processing10, u_failed]

/-- **C5, amended.** Within one job the worker's updates are ordered:
every update before the last has status processing, the last is
terminal, and progress is strictly increasing across the processing
updates and up to 100 on the success path; the failure update,
however, writes progress 0, so on the failure path monotonicity holds
only up to (and not including) the final update. -/
theorem worker_update_sequence (jid : String) (env : WorkerEnv) :
    (∀ u ∈ (process_video_sync jid env).updates.dropLast,
        u.status = "processing") ∧
    (∃ u, (process_video_sync jid env).updates.getLast? = some u ∧
        (u.status = "completed" ∨ u.status = "failed")) ∧
    List.Chain' (fun a b => a < b)
      ((process_video_sync jid env).updates.dropLast.map
        (fun u => u.progress.getD 0)) ∧
    (∀ r, (process_video_sync jid env).outcome = Except.ok r →
      List.Chain' (fun a b => a < b)
        ((process_video_sync jid env).updates.map
          (fun u => u.progress.getD 0))) ∧
    (∀ e, (process_video_sync jid env).outcome = Except.error e →
      ((process_video_sync jid env).updates.map
          (fun u => u.progress.getD 0)).getLast? = some 0) := by
  obtain ⟨c, a, s⟩ := env
  cases c <;> cases a <;> cases s <;>
    simp [process_video_sync, u_processing10, u_processing50, u_processing80,
      u_completed, u_failed, List.getLast?]

/-- Witness for `worker_update_sequence`: full monotonicity on a
successful run, and final progress 0 on a failing run. -/
theorem worker_update_sequence_witness :
    List.Chain' (fun a b => a < b)
      ((process_video_sync "job-w"
          ⟨Except.ok ⟨[], 0, 0, 0⟩, Except.ok (), Except.ok ()⟩).updates.map
        (fun u => u.progress.getD 0)) ∧
    ((process_video_sync "job-e"
        ⟨Except.error "x", Except.ok (), Except.ok ()⟩).updates.map
      (fun u => u.progress.getD 0)).getLast? = some 0 :=
  ⟨(worker_update_sequence "job-w"
      ⟨Except.ok ⟨[], 0, 0, 0⟩, Except.ok (), Except.ok ()⟩).2.2.2.1 _ rfl,
   (worker_update_sequence "job-e"
      ⟨Except.error "x", Except.ok (), Except.ok ()⟩).2.2.2.2 "x" rfl⟩

/-- **C6.** For every run of the worker routine, the transient input
and output files are removed whatever the outcome, and whenever any
step raises, the last update issued is the failure update carrying the
exception's description as `error`. -/
theorem worker_failure_and_cleanup (jid : String) (env : WorkerEnv) :
    (process_video_sync jid env).files = ⟨false, false⟩ ∧
    (∀ e, (process_video_sync jid env).outcome = Except.error e →
      (process_video_sync jid env).updates.getLast? = some (u_failed e)) ∧
    (∀ e, (u_failed e).status = "failed" ∧ (u_failed e).error = some e) := by
  obtain ⟨c, a, s⟩ := env
  cases c <;> cases a <;> cases s <;>
    simp [process_video_sync, cleanupFiles, removeIfExists, List.getLast?,
      u_failed]

/-- Witness for `worker_failure_and_cleanup`: a run failing at the
annotation step ends with the failure update for that exception. -/
theorem worker_failure_and_cleanup_witness :
    (process_video_sync "job-f"
        ⟨Except.ok ⟨[], 0, 0, 0⟩, Except.error "boom",
          Except.ok ()⟩).updates.getLast? = some (u_failed "boom") :=
  (worker_failure_and_cleanup "job-f"
    ⟨Except.ok ⟨[], 0, 0, 0⟩, Except.error "boom",
      Except.ok ()⟩).2.1 "boom" rfl

/-- **C7.** A status update issued against a job id whose record no
longer exists (for instance after `DELETE /api/jobs/{id}`) is silently
ignored: `_update_job_status` completes normally (its whole body is in
try/except) and the store is unchanged — no record is created or
modified, for any database behaviour. -/
theorem update_missing_id_ignored (dbError : Option String)
    (store : List Job) (job_id status : String) (progress : Nat)
    (message : String) (result : Option WorkerResult)
    (error : Option String) (now : Nat)
    (h : ∀ j ∈ store, j.job_id ≠ job_id) :
    update_job_status dbError store job_id status progress message result
        error now = store := by
  cases dbError with
  | some e => rfl
  | none =>
      simp only [update_job_status, update_job_status_db]
      rw [mongo_update_first_no_match store job_id _ h]

/-- Witness for `update_missing_id_ignored`: updating a store holding
only `job-a` at the id `job-b` changes nothing. -/
theorem update_missing_id_ignored_witness :
    update_job_status none [exJob] "job-b" "completed" 100 "done" none none
        7 = [exJob] :=
  update_missing_id_ignored none [exJob] "job-b" "completed" 100 "done" none
    none 7 (by decide)

/-- **C10** (implicit). The worker's status writer swallows every
exception and always returns normally, so the worker can never fail
because of a status write; a lost terminal write is silent — after a
successful run whose completion write hits a database error, the job
record permanently shows processing at progress 80 with no error and
no completion time; and the failure-path update writes progress 0,
discarding whatever progress the job had reached. -/
theorem status_writer_swallows_errors :
    (∀ (e : String) (store : List Job) (job_id status : String)
        (progress : Nat) (message : String) (result : Option WorkerResult)
        (error : Option String) (now : Nat),
      update_job_status (some e) store job_id status progress message result
          error now = store) ∧
    ((JobRecord_get_by_id
        (applyRunMasked
          (JobRecord_create [] "job-10" "video_classification" "queued"
            ⟨none, none, none, 0⟩ 0)
          "job-10"
          (process_video_sync "job-10"
            ⟨Except.ok ⟨[], 0, 0, 0⟩, Except.ok (), Except.ok ()⟩).updates
          (fun i => if i < 3 then none else some "connection reset")
          (fun i => i + 1))
        "job-10").map
      (fun j => (j.status, j.progress, j.error, j.completed_at)) =
      some ("processing", 80, none, none)) ∧
    (∀ (j : Job) (e : String) (now : Nat),
      (applyUpdate j (u_failed e) now).progress = 0) := by
  refine ⟨fun _ _ _ _ _ _ _ _ _ => rfl, by decide, fun j e now => rfl⟩

/-! ## Claims C1 and C8: the Job Store contract and the async endpoint -/

lemma applyUpdate_job_id (j : Job) (u : JobUpdate) (t : Nat) :
    (applyUpdate j u t).job_id = j.job_id := rfl

lemma get_by_id_create (store : List Job) (jid jt st : String)
    (md : JobMetadata) (now : Nat) (hfresh : ∀ j ∈ store, j.job_id ≠ jid) :
    JobRecord_get_by_id (JobRecord_create store jid jt st md now) jid =
      some ⟨jid, jt, st, 0, none, now, none, none, none, md⟩ := by
  have hnone : store.find? (fun j => decide (j.job_id = jid)) = none := by
    rw [List.find?_eq_none]
    intro x hx
    simp [hfresh x hx]
  simp [JobRecord_get_by_id, JobRecord_create, List.find?_append, hnone]

lemma get_by_id_update (store : List Job) (jid : String) (u : JobUpdate)
    (t : Nat) :
    JobRecord_get_by_id (JobRecord_update_status store jid u t) jid =
      (JobRecord_get_by_id store jid).map (fun j => applyUpdate j u t) := by
  induction store with
  | nil => rfl
  | cons j rest ih =>
      by_cases h : j.job_id = jid
      · simp [JobRecord_get_by_id, JobRecord_update_status,
          mongo_update_first, h, List.find?_cons, applyUpdate_job_id]
      · simp only [JobRecord_get_by_id, JobRecord_update_status,
          mongo_update_first, if_neg h] at ih ⊢
        simp [List.find?_cons, h, ih]

/-- **C1.** (spec-modelled) The Job Store operations called by the
async endpoints of `app/main.py` exist with the specified signatures
and results: `create(job_id, job_type, status="queued", metadata)`
yields a retrievable record with status queued and progress 0,
`get_active_jobs` returns exactly the jobs whose status is queued or
processing, `delete_by_id` reports existence and removes the record,
and `update_status` rewrites exactly the record with the given id. -/
theorem job_store_contract (store : List Job) (jid jt : String)
    (md : JobMetadata) (now : Nat)
    (hfresh : ∀ j ∈ store, j.job_id ≠ jid) :
    JobRecord_get_by_id (JobRecord_create store jid jt "queued" md now) jid =
        some ⟨jid, jt, "queued", 0, none, now, none, none, none, md⟩ ∧
    (∀ j, j ∈ JobRecord_get_active_jobs store ↔
        j ∈ store ∧ (j.status = "queued" ∨ j.status = "processing")) ∧
    ((JobRecord_delete_by_id store jid).2 = true ↔
        ∃ j ∈ store, j.job_id = jid) ∧
    (∀ j ∈ (JobRecord_delete_by_id store jid).1, j.job_id ≠ jid) ∧
    (∀ u t, JobRecord_get_by_id (JobRecord_update_status store jid u t) jid =
      (JobRecord_get_by_id store jid).map (fun j => applyUpdate j u t)) := by
  refine ⟨get_by_id_create store jid jt "queued" md now hfresh, ?_, ?_, ?_,
    fun u t => get_by_id_update store jid u t⟩
  · intro j
    simp [JobRecord_get_active_jobs, List.mem_filter]
  · simp [JobRecord_delete_by_id, List.any_eq_true]
  · intro j hj
    simp only [JobRecord_delete_by_id, List.mem_filter] at hj
    simpa using hj.2

/-- Witness for `job_store_contract` on a store holding one processing
job with a different id. -/
theorem job_store_contract_witness :
    JobRecord_get_by_id
        (JobRecord_create [exJob] "job-1" "video_classification" "queued"
          ⟨none, none, none, 0⟩ 5) "job-1" =
      some ⟨"job-1", "video_classification", "queued", 0, none, 5, none,
        none, none, ⟨none, none, none, 0⟩⟩ ∧
    (exJob ∈ JobRecord_get_active_jobs [exJob] ↔
      exJob ∈ [exJob] ∧
        (exJob.status = "queued" ∨ exJob.status = "processing")) :=
  ⟨(job_store_contract [exJob] "job-1" "video_classification"
      ⟨none, none, none, 0⟩ 5 (by decide)).1,
   (job_store_contract [exJob] "job-1" "video_classification"
      ⟨none, none, none, 0⟩ 5 (by decide)).2.1 exJob⟩

/-- **C8, counterexample.** When dispatch to the pool fails, the
endpoint re-raises HTTP 500 "Error submitting processing job: ..."
(`app/main.py` lines 851-854): the error **is** surfaced to the
submitting request, which does not complete successfully. -/
theorem dispatch_failure_surfaces_500 :
    (classify_video_async [] "job-8" (some "v.mp4") none none 10
        ⟨none, some "pool closed"⟩ 4).2.1 =
      ApiResult.httpError 500
        "Error submitting processing job: pool closed" ∧
    apiIsOk (classify_video_async [] "job-8" (some "v.mp4") none none 10
        ⟨none, some "pool closed"⟩ 4).2.1 = false := by decide

/-- **C8, amended.** When dispatch to the pool fails, the
already-created job is transitioned to failed (message set, error
unset) and the temp file is removed — but the submitting request fails
with HTTP 500 rather than completing successfully with the job id. -/
theorem classify_video_async_dispatch_failure (store : List Job)
    (jid : String) (fn : Option String) (lat lon : Option ℚ) (fs : Nat)
    (e : String) (now : Nat) (hfresh : ∀ j ∈ store, j.job_id ≠ jid) :
    (JobRecord_get_by_id
        (classify_video_async store jid fn lat lon fs ⟨none, some e⟩ now).1
        jid).map (fun j => (j.status, j.message, j.error)) =
      some ("failed", some ("Error submitting job: " ++ e), none) ∧
    (classify_video_async store jid fn lat lon fs ⟨none, some e⟩ now).2.1 =
      ApiResult.httpError 500 ("Error submitting processing job: " ++ e) ∧
    (classify_video_async store jid fn lat lon fs ⟨none, some e⟩ now).2.2 =
      false := by
  refine ⟨?_, rfl, rfl⟩
  show (JobRecord_get_by_id
      (JobRecord_update_status
        (JobRecord_create store jid "video_classification" "queued"
          ⟨fn, lat, lon, fs⟩ now)
        jid (submitFailureUpdate e) now) jid).map
      (fun j => (j.status, j.message, j.error)) =
    some ("failed", some ("Error submitting job: " ++ e), none)
  rw [get_by_id_update,
    get_by_id_create store jid "video_classification" "queued"
      ⟨fn, lat, lon, fs⟩ now hfresh]
  rfl

/-- Witness for `classify_video_async_dispatch_failure` on the empty
store. -/
theorem classify_video_async_dispatch_failure_witness :
    (JobRecord_get_by_id
        (classify_video_async [] "job-9" (some "v.mp4") none none 10
          ⟨none, some "pool closed"⟩ 4).1 "job-9").map
      (fun j => (j.status, j.message, j.error)) =
      some ("failed", some "Error submitting job: pool closed", none) :=
  (classify_video_async_dispatch_failure [] "job-9" (some "v.mp4") none none
    10 "pool closed" 4 (by simp)).1

lemma pending_createdJob (jid jt : String) (md : JobMetadata) (t0 : Nat) :
    Pending (createdJob jid jt md t0) := by
  simp [Pending, createdJob]

lemma inv_of_pending (j : Job) (h : Pending j) : StatusFieldInv j := by
  obtain ⟨hs, hc, hr, he⟩ := h
  rcases hs with h1 | h1 <;> simp [StatusFieldInv, h1, hc, hr, he]

lemma pending_applyUpdate_proc (j : Job) (u : JobUpdate) (t : Nat)
    (hj : Pending j) (hu : ProcUpdate u) : Pending (applyUpdate j u t) := by
  obtain ⟨hs, hc, hr, he⟩ := hj
  rcases hu with rfl | rfl | rfl <;>
    simp [Pending, applyUpdate, u_processing10, u_processing50,
      u_processing80, hc, hr, he]

lemma inv_applyUpdate_term (j : Job) (u : JobUpdate) (t : Nat)
    (hj : Pending j) (hu : TermUpdate u) :
    StatusFieldInv (applyUpdate j u t) := by
  obtain ⟨hs, hc, hr, he⟩ := hj
  rcases hu with ⟨r, rfl⟩ | ⟨e, rfl⟩ <;>
    simp [StatusFieldInv, applyUpdate, u_completed, u_failed, hr, he]

lemma inv_foldl_of_trace (tr : List JobUpdate) (htr : WorkerTrace tr)
    (events : List (JobUpdate × Nat)) (j : Job) (hj : Pending j)
    (hsub : (events.map Prod.fst).Sublist tr) :
    StatusFieldInv (events.foldl (fun a p => applyUpdate a p.1 p.2) j) := by
  induction htr generalizing events j with
  | nil =>
      have hev : events = [] := by
        have := List.sublist_nil.mp hsub
        simpa using this
      subst hev
      exact inv_of_pending j hj
  | term u hu =>
      rcases List.sublist_singleton.mp hsub with h | h
      · have hev : events = [] := by simpa using h
        subst hev
        exact inv_of_pending j hj
      · rcases List.map_eq_cons_iff.mp h with ⟨ev, evs, rfl, h1, h2⟩
        have hev : evs = [] := by simpa using h2
        subst hev
        simp only [List.foldl_cons, List.foldl_nil]
        have hu' : TermUpdate ev.1 := by rw [h1]; exact hu
        exact inv_applyUpdate_term j ev.1 ev.2 hj hu'
  | proc u hu tr htr ih =>
      rcases List.sublist_cons_iff.mp hsub with h | ⟨r, hr, hsub'⟩
      · exact ih events j hj h
      · rcases List.map_eq_cons_iff.mp hr with ⟨ev, evs, rfl, h1, h2⟩
        simp only [List.foldl_cons]
        have hu' : ProcUpdate ev.1 := by rw [h1]; exact hu
        have hsub2 : (evs.map Prod.fst).Sublist tr := by rw [h2]; exact hsub'
        exact ih evs _ (pending_applyUpdate_proc j ev.1 ev.2 hj hu') hsub2

lemma workerTrace_process_video_sync (jid : String) (env : WorkerEnv) :
    WorkerTrace (process_video_sync jid env).updates := by
  obtain ⟨c, a, s⟩ := env
  cases c with
  | error e =>
      exact WorkerTrace.proc _ (Or.inl rfl) _
        (WorkerTrace.term _ (Or.inr ⟨e, rfl⟩))
  | ok cr =>
    cases a with
    | error e =>
        exact WorkerTrace.proc _ (Or.inl rfl) _
          (WorkerTrace.proc _ (Or.inr (Or.inl rfl)) _
            (WorkerTrace.term _ (Or.inr ⟨e, rfl⟩)))
    | ok u =>
      cases s with
      | error e =>
          exact WorkerTrace.proc _ (Or.inl rfl) _
            (WorkerTrace.proc _ (Or.inr (Or.inl rfl)) _
              (WorkerTrace.proc _ (Or.inr (Or.inr rfl)) _
                (WorkerTrace.term _ (Or.inr ⟨e, rfl⟩))))
      | ok u2 =>
          exact WorkerTrace.proc _ (Or.inl rfl) _
            (WorkerTrace.proc _ (Or.inr (Or.inl rfl)) _
              (WorkerTrace.proc _ (Or.inr (Or.inr rfl)) _
                (WorkerTrace.term _ (Or.inl ⟨worker_result jid cr, rfl⟩))))

lemma exactly_one_of_inv (j : Job) (h : StatusFieldInv j)
    (ht : j.status = "completed" ∨ j.status = "failed") :
    (j.result.isSome ∧ j.error = none) ∨
      (j.error.isSome ∧ j.result = none) := by
  obtain ⟨hc, hr, he⟩ := h
  rcases ht with h1 | h1
  · left
    refine ⟨hr.mpr h1, ?_⟩
    have : ¬j.error.isSome = true := by simp [he, h1]
    simpa [Option.not_isSome_iff_eq_none] using this
  · right
    refine ⟨he.mpr h1, ?_⟩
    have : ¬j.result.isSome = true := by simp [hr, h1]
    simpa [Option.not_isSome_iff_eq_none] using this

/-- **C2, counterexample.** Submitting a video whose dispatch to the
pool fails (the call site `app/main.py` lines 842-848 cited by the
claim) leaves the job record Failed with `error` unset and neither
`result` nor `error` populated — against "error is set iff status is
Failed" and "exactly one of result/error is populated for any terminal
job". -/
theorem submission_failure_violates_error_iff_failed :
    ((JobRecord_get_by_id
        (classify_video_async [] "job-2" (some "v.mp4") none none 10
          ⟨none, some "pool closed"⟩ 4).1 "job-2").map
      (fun j => (j.status, j.error, j.result))) =
      some ("failed", none, none) := by decide

/-- **C2, amended.** Every record produced by job creation and the
worker's status writes satisfies the invariants — `completed_at` set
iff terminal, `result` set iff Completed, `error` set iff Failed, and
exactly one of `result`/`error` populated for a terminal record.  A
record produced by the submission-failure path instead is Failed with
`completed_at` stamped but with neither `result` nor `error` set; the
error description is only in `message`. -/
theorem job_record_field_invariants :
    (∀ j, workerProducedRecord j → StatusFieldInv j ∧
      ((j.status = "completed" ∨ j.status = "failed") →
        ((j.result.isSome ∧ j.error = none) ∨
          (j.error.isSome ∧ j.result = none)))) ∧
    (∀ j, submitFailureProducedRecord j →
      (j.completed_at.isSome ↔
        (j.status = "completed" ∨ j.status = "failed")) ∧
      j.result = none ∧
      (j.status = "failed" → j.error = none ∧ j.message.isSome)) := by
  constructor
  · rintro j ⟨jid, jt, md, t0, env, events, hsub, rfl⟩
    have hinv := inv_foldl_of_trace _ (workerTrace_process_video_sync jid env)
      events _ (pending_createdJob jid jt md t0) hsub
    exact ⟨hinv, fun ht => exactly_one_of_inv _ hinv ht⟩
  · rintro j ⟨jid, jt, md, t0, e, events, hsub, rfl⟩
    rcases List.sublist_singleton.mp hsub with h | h
    · have hev : events = [] := by simpa using h
      subst hev
      simp [createdJob]
    · rcases List.map_eq_cons_iff.mp h with ⟨ev, evs, rfl, h1, h2⟩
      have hev : evs = [] := by simpa using h2
      subst hev
      simp only [List.foldl_cons, List.foldl_nil]
      rw [show ev.1 = submitFailureUpdate e from h1]
      simp [applyUpdate, submitFailureUpdate, createdJob]

/-- Witness for `job_record_field_invariants` at two concrete records:
one produced by a failing worker run, one by the submission-failure
path. -/
theorem job_record_field_invariants_witness :
    (StatusFieldInv exFailedJob ∧
      ((exFailedJob.status = "completed" ∨ exFailedJob.status = "failed") →
        ((exFailedJob.result.isSome ∧ exFailedJob.error = none) ∨
          (exFailedJob.error.isSome ∧ exFailedJob.result = none)))) ∧
    ((exSubmitFailedJob.completed_at.isSome ↔
        (exSubmitFailedJob.status = "completed" ∨
          exSubmitFailedJob.status = "failed")) ∧
      exSubmitFailedJob.result = none ∧
      (exSubmitFailedJob.status = "failed" →
        exSubmitFailedJob.error = none ∧ exSubmitFailedJob.message.isSome)) :=
  ⟨job_record_field_invariants.1 exFailedJob
      ⟨"job-3", "video_classification", ⟨none, none, none, 0⟩, 0,
        ⟨Except.error "x", Except.ok (), Except.ok ()⟩,
        [(u_processing10, 1), (u_failed "x", 2)], List.Sublist.refl _, rfl⟩,
   job_record_field_invariants.2 exSubmitFailedJob
      ⟨"job-4", "video_classification", ⟨none, none, none, 0⟩, 0, "y",
        [(submitFailureUpdate "y", 3)], List.Sublist.refl _, rfl⟩⟩

example :
    classify_image_stage_summary
      [⟨[0, 0, 1, 1], 1, 1⟩, ⟨[0, 0, 1, 1], 1, 1⟩] =
      [(Sum.inr "0", 0), (Sum.inr "1", 2), (Sum.inr "2", 0)] := by decide

example :
    (VideoClassificationRecord_create_agg
        [[⟨[0, 0, 1, 1], 0, 1⟩], [], [], [], [], [], [], [], [], []]
        ⟨some 10, some 30, some 1⟩).stage_summary =
      [(Sum.inr "0", 1), (Sum.inr "1", 0), (Sum.inr "2", 0)] := by decide

example :
    (VideoClassificationRecord_create_agg
        [[⟨[0, 0, 1, 1], 0, 1⟩], [], [], [], [], [], [], [], [], []]
        ⟨some 10, some 30, some 1⟩).total_detections = 1 := by decide

example :
    (worker_result "j" ⟨[[⟨[0, 0, 1, 1], 0, 1⟩], []], 0, 30, 1⟩).stage_summary =
      [(Sum.inr "0", 1), (Sum.inr "1", 0), (Sum.inr "2", 0)] := by decide

end Pollination
